import Mathlib

/-!
Shallow embedding of the txyoga REST adapter layer (content negotiation,
pagination, collection/element resources, error taxonomy), translated from
src/txyoga/serializers.py, src/txyoga/resource.py and src/txyoga/errors.py.

Python machine-level conventions used throughout:
* Python exceptions are modelled with `Except`; the error type `PyError`
  distinguishes typed `SerializableError`s (the taxonomy of errors.py) from
  untyped interpreter errors (`AttributeError`, `ValueError`, `KeyError`).
* Python `int` is `Int`; list slicing follows CPython clamping semantics.
* The backing collection capability (external per the spec) is a finite list
  of elements with unique identifiers; `removeByIdentifier` and item lookup
  raise `KeyError` on an absent identifier, the contract `getChild` relies on.
-/

namespace Txyoga

/-- JSON values, the wire format of the default encoder bundle. -/
inductive JSON where
  | null : JSON
  | str : String → JSON
  | int : Int → JSON
  | bool : Bool → JSON
  | arr : List JSON → JSON
  | obj : List (String × JSON) → JSON

/-- Model of a `SerializableError` (errors.py): the Python class name is kept
as `kind`, alongside `message`, `details` and the HTTP `responseCode`. -/
structure SerializableError where
  kind : String
  message : String
  details : List (String × JSON)
  responseCode : Nat

/-- ASCII single quote, to model Python `repr` of a string. -/
def squote : String := String.mk [Char.ofNat 39]

/-- Python `repr` of a string value (enough for path identifiers). -/
def pyRepr (s : String) : String := squote ++ s ++ squote

/-- errors.py: `UnsupportedContentTypeError` (415). -/
def UnsupportedContentTypeError (supported : List String) (provided : String) :
    SerializableError :=
  { kind := "UnsupportedContentTypeError"
    message := "no acceptable decoder available for given content type"
    details := [("supportedContentTypes", JSON.arr (supported.map JSON.str)),
                ("providedContentType", JSON.str provided)]
    responseCode := 415 }

/-- errors.py: `MissingContentType` (415). -/
def MissingContentType (supported : List String) : SerializableError :=
  { kind := "MissingContentType"
    message := "request didn" ++ squote ++ "t specify a content type"
    details := [("supportedContentTypes", JSON.arr (supported.map JSON.str))]
    responseCode := 415 }

/-- errors.py: `UnacceptableRequestError` (406). -/
def UnacceptableRequestError (supported accepted : List String) :
    SerializableError :=
  { kind := "UnacceptableRequestError"
    message := "no acceptable encoder available"
    details := [("supportedContentTypes", JSON.arr (supported.map JSON.str)),
                ("acceptedContentTypes", JSON.arr (accepted.map JSON.str))]
    responseCode := 406 }

/-- errors.py: `PaginationError` (400, the `SerializableError` default). -/
def PaginationError (message : String) : SerializableError :=
  { kind := "PaginationError"
    message := message
    details := []
    responseCode := 400 }

/-- errors.py: `MissingResourceError` (404). -/
def MissingResourceError (message : String) : SerializableError :=
  { kind := "MissingResourceError"
    message := message
    details := []
    responseCode := 404 }

/-- errors.py: `IdentifierError` (403); details hold `repr`ed values. -/
def IdentifierError (expected actual : String) : SerializableError :=
  { kind := "IdentifierError"
    message := "new element did not have specified identifying attribute"
    details := [("actualIdentifyingAttribute", JSON.str (pyRepr actual)),
                ("expectedIdentifyingAttribute", JSON.str (pyRepr expected))]
    responseCode := 403 }

/-- A Python exception: either a typed `SerializableError` from the taxonomy,
or an untyped interpreter error. `attributeError n` models evaluation of a
module attribute `errors.n` that does not exist in errors.py. -/
inductive PyError where
  | serializable : SerializableError → PyError
  | attributeError : String → PyError
  | valueError : String → PyError
  | keyError : String → PyError

/-- Python `str.split(sep)` for a one-character separator, on char lists
(structurally recursive so the kernel can evaluate it). -/
def splitOnChar (sep : Char) : List Char → List (List Char)
  | [] => [[]]
  | c :: rest =>
    if c == sep then [] :: splitOnChar sep rest
    else
      match splitOnChar sep rest with
      | [] => [[c]]
      | h :: t => (c :: h) :: t

/-- Python `str.split(sep, 1)` for a one-character separator: at most one
split, at the first occurrence. -/
def splitFirstOnChar (sep : Char) : List Char → List (List Char)
  | [] => [[]]
  | c :: rest =>
    if c == sep then [[], rest]
    else
      match splitFirstOnChar sep rest with
      | [] => [[c]]
      | h :: t => (c :: h) :: t

/-- Python `str.strip()`: remove leading and trailing whitespace. -/
def trimChars (l : List Char) : List Char :=
  ((l.dropWhile Char.isWhitespace).reverse.dropWhile Char.isWhitespace).reverse

/-- Python `str.strip(".")`: remove leading and trailing dots. -/
def stripDots (l : List Char) : List Char :=
  ((l.dropWhile (· == '.')).reverse.dropWhile (· == '.')).reverse

/-- ASCII `str.lower` on one character. -/
def lowerChar (c : Char) : Char :=
  if 65 ≤ c.toNat ∧ c.toNat ≤ 90 then Char.ofNat (c.toNat + 32) else c

/-- Python `dict` insertion: overwrite an existing key, else append. -/
def dictInsert (d : List (String × String)) (kv : String × String) :
    List (String × String) :=
  if d.any (fun p => p.1 == kv.1)
  then d.map (fun p => if p.1 == kv.1 then kv else p)
  else d ++ [kv]

/-- One `;`-delimited Accept parameter, as in serializers.py `_parseAccept`:
`key, value = map(str.strip, param.split("=", 1))`. A segment with no `=`
sign fails to unpack, which in Python raises an uncaught `ValueError`;
that failure is `none` here. -/
def parseAcceptParam (p : List Char) : Option (String × String) :=
  match splitFirstOnChar '=' p with
  | [k, v] => some (String.mk (trimChars k), String.mk (trimChars v))
  | _ => none

/-- Fold the raw parameter segments of one Accept part into a dict. -/
def parseAcceptParams (raw : List (List Char)) :
    Option (List (String × String)) :=
  raw.foldlM (fun acc p => (parseAcceptParam p).map (dictInsert acc)) []

/-- serializers.py `_parseAccept`: split the header on commas, trim, skip
empty segments; each segment is a content type followed by `;`-delimited
`key=value` parameters. `none` models the uncaught `ValueError` raised when
a parameter segment has no `=`. -/
def parseAccept (header : String) :
    Option (List (String × List (String × String))) :=
  (splitOnChar ',' (stripDots header.toList)).foldlM
    (fun acc part =>
      let part := trimChars part
      if part = [] then some acc
      else
        match splitOnChar ';' part with
        | [] => some acc
        | ct :: rawParams =>
          (parseAcceptParams rawParams).map
            (fun ps => acc ++ [(String.mk (trimChars ct), ps)]))
    []

/-- An encoder or decoder: a function tagged with a content type
(serializers.py `forContentType`). Only the tag is observable here. -/
structure Codec where
  contentType : String
deriving DecidableEq

/-- The default JSON codec bundle of serializers.py. -/
def jsonCodec : Codec := { contentType := "application/json" }

/-- serializers.py `EncodingResource._getEncoder`. A missing or empty
`Accept` header defaults to wildcard; the header is parsed and its content
types lowercased; the first accepted type with a registered encoder wins;
otherwise the default encoder serves a wildcard; otherwise the code raises
`errors.UnacceptableRequest`, a name errors.py does not define, so Python
raises an untyped `AttributeError`. -/
def getEncoder (encoders : List Codec) (defaultEncoder : Codec)
    (acceptHeader : Option String) : Except PyError Codec :=
  let accept :=
    match acceptHeader with
    | none => "*/*"
    | some "" => "*/*"
    | some s => s
  match parseAccept accept with
  | none => Except.error (PyError.valueError "need more than 1 value to unpack")
  | some parsed =>
    let accepted := parsed.map (fun p => String.mk (p.1.toList.map lowerChar))
    match accepted.findSome?
        (fun ct => encoders.find? (fun e => e.contentType == ct)) with
    | some enc => Except.ok enc
    | none =>
      if accepted.contains "*/*" then Except.ok defaultEncoder
      else Except.error (PyError.attributeError "UnacceptableRequest")

/-- serializers.py `EncodingResource._getDecoder`. An absent `Content-Type`
header raises the typed `MissingContentType`; a present but unmatched type
reaches `raise errors.UnsupportedContentType`, a name errors.py does not
define, so Python raises an untyped `AttributeError`. -/
def getDecoder (decoders : List Codec) (contentTypeHeader : Option String) :
    Except PyError Codec :=
  match contentTypeHeader with
  | none =>
    Except.error (PyError.serializable
      (MissingContentType (decoders.map (fun d => d.contentType))))
  | some ct =>
    match decoders.find? (fun d => d.contentType == ct) with
    | some d => Except.ok d
    | none => Except.error (PyError.attributeError "UnsupportedContentType")

/-- A rendered HTTP body: empty string or a JSON document. -/
inductive Body where
  | empty : Body
  | json : JSON → Body

/-- A rendered HTTP response: status code and body. -/
structure Response where
  status : Nat
  body : Body

/-- serializers.py `_RESTResourceJSONEncoder.default`: a `SerializableError`
is emitted as an object with exactly the `errorMessage` and `errorDetails`
fields. -/
def errorJSON (e : SerializableError) : JSON :=
  JSON.obj [("errorMessage", JSON.str e.message),
            ("errorDetails", JSON.obj e.details)]

/-- Modelled from the spec: the `reportErrors` decorator is imported from
txyoga.serializers in resource.py but its definition is absent from src.
Per spec sections 4.3 and 7, any typed `SerializableError` raised while
resolving the encoder or decoder or while running the handler aborts the
request and is serialized uniformly: the response carries the error
associated status code and the JSON error body produced by the
`_RESTResourceJSONEncoder` special case (which is in src). -/
def reportErrors (run : Except SerializableError Response) : Response :=
  match run with
  | Except.ok r => r
  | Except.error e => { status := e.responseCode, body := Body.json (errorJSON e) }

/-- A decorated handler: negotiation resolution runs first, then the handler
body with the resolved codec; `reportErrors` serializes any typed failure. -/
def runHandler (resolve : Except SerializableError Codec)
    (handler : Codec → Except SerializableError Response) : Response :=
  reportErrors (resolve.bind handler)

/-- Python `int(s)` on a digit string: `none` when empty or non-digit. -/
def digitsToNat : List Char → Option Nat
  | [] => none
  | cs =>
    cs.foldlM (fun acc c => if c.isDigit then some (acc * 10 + (c.toNat - 48)) else none) 0

/-- Python `int(s)`: strip whitespace, optional sign, decimal digits;
`none` models the `ValueError` raised otherwise. -/
def pyInt (s : String) : Option Int :=
  match trimChars s.toList with
  | '-' :: rest => (digitsToNat rest).map (fun n => -(n : Int))
  | '+' :: rest => (digitsToNat rest).map (fun n => (n : Int))
  | cs => (digitsToNat cs).map (fun n => (n : Int))

/-- resource.py `_getBound`: `args[key]` is `none` when the key is absent
(`KeyError` returns the default); a value list whose length is not one is a
duplicate-key `PaginationError`; a non-integer value is a `PaginationError`. -/
def getBound (values : Option (List String)) (key : String) (default : Int) :
    Except SerializableError Int :=
  match values with
  | none => Except.ok default
  | some vs =>
    match vs with
    | [v] =>
      match pyInt v with
      | some n => Except.ok n
      | none => Except.error (PaginationError ("key " ++ key ++ " not an integer"))
    | _ => Except.error (PaginationError ("duplicate key " ++ key ++ " in query"))

/-- resource.py `CollectionResource._getBounds`: `start` defaults to 0,
`stop` defaults to the collection page size. -/
def getBounds (startVals stopVals : Option (List String)) (pageSize : Int) :
    Except SerializableError (Int × Int) :=
  match getBound startVals "start" 0 with
  | Except.error e => Except.error e
  | Except.ok start =>
    match getBound stopVals "stop" pageSize with
    | Except.error e => Except.error e
    | Except.ok stop => Except.ok (start, stop)

/-- A pagination link: the scheme, host and path of the request URL are
preserved (`base`) and the query is replaced by the window bounds, as built
by `buildURL` inside resource.py `_getPaginationURLs`. -/
structure PageURL where
  base : String
  start : Int
  stop : Int
deriving DecidableEq

/-- resource.py `CollectionResource._getPaginationURLs`: validate the window
width against zero and `maxPageSize`, then synthesize the previous link
`[max(0, start - width), start)` (suppressed when that window is empty) and
the next link `[stop, stop + width)`. -/
def getPaginationURLs (base : String) (start stop maxPageSize : Int) :
    Except SerializableError (Option PageURL × PageURL) :=
  let pageSize := stop - start
  if pageSize < 0 then
    Except.error (PaginationError "Requested page size is negative")
  else if pageSize > maxPageSize then
    Except.error (PaginationError "Requested page size too large")
  else
    let prevStart := max 0 (start - pageSize)
    let prevStop := start
    let prevURL :=
      if prevStart ≠ prevStop
      then some { base := base, start := prevStart, stop := prevStop }
      else none
    Except.ok (prevURL, { base := base, start := stop, stop := stop + pageSize })

/-- CPython list slicing with step 1: clamp a signed index into `[0, n]`,
counting from the end when negative. -/
def pyIndex (n : Nat) (i : Int) : Nat :=
  if i < 0 then (max 0 ((n : Int) + i)).toNat else (min i (n : Int)).toNat

/-- CPython `l[start:stop]`. -/
def pySlice {α : Type} (l : List α) (start stop : Int) : List α :=
  let lo := pyIndex l.length start
  let hi := pyIndex l.length stop
  (l.drop lo).take (hi - lo)

/-- An element capability: the value of its identifying attribute and the
state projection `toState` exposes (external backing, per interface.py). -/
structure Element where
  id : String
  state : JSON

/-- A collection capability (external backing, per interface.py): elements
with unique identifiers plus the configured page sizes. -/
structure Collection where
  elements : List Element
  pageSize : Int
  maxPageSize : Int

/-- Backing `removeByIdentifier`, as `CollectionResource.getChild` relies on
it: remove the element with the identifier, raising `KeyError` when it is
absent (leaving the collection unchanged). -/
def removeByIdentifier (c : Collection) (id : String) :
    Except PyError Collection :=
  if c.elements.any (fun e => e.id == id)
  then Except.ok { c with elements := c.elements.filter (fun e => e.id != id) }
  else Except.error (PyError.keyError id)

/-- Backing item lookup `collection[path]`: `KeyError` when absent. -/
def lookupElement (c : Collection) (id : String) : Except PyError Element :=
  match c.elements.find? (fun e => e.id == id) with
  | some e => Except.ok e
  | none => Except.error (PyError.keyError id)

/-- resource.py `CollectionResource._createElement` (wrapped by
`reportErrors`): the element has been constructed from the decoded body by
the backing `createElementFromState`; when the route supplied an expected
identifier, a mismatch with the element identifying attribute raises
`IdentifierError` before the element is added; otherwise the element is
added and `Created()` renders 201 with an empty body. -/
def createElement (c : Collection) (element : Element)
    (identifier : Option String) : Response × Collection :=
  match identifier with
  | some expected =>
    if element.id ≠ expected then
      (reportErrors (Except.error (IdentifierError expected element.id)), c)
    else
      ({ status := 201, body := Body.empty },
       { c with elements := c.elements ++ [element] })
  | none =>
    ({ status := 201, body := Body.empty },
     { c with elements := c.elements ++ [element] })

/-- Outcome of `CollectionResource.getChild`: delegate to an element
resource, or a terminal rendered page (deleted, created or error). -/
inductive ChildOutcome where
  | resource : Element → ChildOutcome
  | page : Response → ChildOutcome

/-- resource.py `CollectionResource.getChild`. `terminal` is Python
`not request.postpath`; `decodedElement` is the element the PUT-create
branch would construct from the decoded body. The DELETE branch runs before
the element lookup; `KeyError` from either falls through to PUT-create or to
`_missingElement`, which raises the typed `MissingResourceError` serialized
by `reportErrors`. -/
def getChild (c : Collection) (method : String) (terminal : Bool)
    (path : String) (decodedElement : Element) : ChildOutcome × Collection :=
  let onKeyError : ChildOutcome × Collection :=
    if method == "PUT" && terminal then
      let rc := createElement c decodedElement (some path)
      (ChildOutcome.page rc.1, rc.2)
    else
      (ChildOutcome.page
        (reportErrors (Except.error
          (MissingResourceError ("no such element " ++ path)))), c)
  if method == "DELETE" && terminal then
    match removeByIdentifier c path with
    | Except.ok c2 => (ChildOutcome.page { status := 204, body := Body.empty }, c2)
    | Except.error _ => onKeyError
  else
    match lookupElement c path with
    | Except.ok e => (ChildOutcome.resource e, c)
    | Except.error _ => onKeyError

/-- The collection GET response envelope before encoding. -/
structure Envelope where
  results : List JSON
  prev : Option PageURL
  next : Option PageURL

/-- The body of resource.py `CollectionResource.render_GET` after the bounds
have been resolved: synthesize pagination links, slice the collection,
project element states, and suppress the next link when the window was not
filled. -/
def renderWindow (c : Collection) (base : String) (start stop : Int) :
    Except SerializableError Envelope :=
  match getPaginationURLs base start stop c.maxPageSize with
  | Except.error e => Except.error e
  | Except.ok (prevURL, nextURL) =>
    let elements := pySlice c.elements start stop
    let results := elements.map (fun el => el.state)
    let nextOut :=
      if stop - start > (elements.length : Int) then none else some nextURL
    Except.ok { results := results, prev := prevURL, next := nextOut }

/-- resource.py `CollectionResource.render_GET` (up to the final encoder
application): resolve the bounds from the query, then render the window. -/
def render_GET (c : Collection) (base : String)
    (startVals stopVals : Option (List String)) :
    Except SerializableError Envelope :=
  match getBounds startVals stopVals c.pageSize with
  | Except.error e => Except.error e
  | Except.ok (start, stop) => renderWindow c base start stop

/-- A query parameter key supplied with a value-list length other than one
(`len(values) != 1` in resource.py `_getBound`). -/
def dupKey : Option (List String) → Bool
  | some vs => vs.length != 1
  | none => false

/-- A query parameter key supplied exactly once with a non-integer value. -/
def badIntVal : Option (List String) → Bool
  | some [v] => (pyInt v).isNone
  | _ => false

/-- The bound a well-formed query resolves to: the parsed single value, or
the default when absent. -/
def resolvedBound : Option (List String) → Int → Int
  | some [v], d => (pyInt v).getD d
  | _, d => d

/-- Concrete one-element collection (identifier 7) used by witnesses. -/
def sampleCollection : Collection :=
  { elements := [{ id := "7", state := JSON.null }], pageSize := 10, maxPageSize := 20 }

/-- Concrete element used by witnesses where the decoded body is unused. -/
def sampleElement : Element := { id := "7", state := JSON.null }

/-- Claim C1: encoder resolution scans the Accept types in header order and
returns the first registered encoder that matches; with a wildcard it falls
back to the default encoder; but on no match without a wildcard the code
evaluates `errors.UnacceptableRequest`, a name errors.py does not define, so
the request dies with an untyped `AttributeError` instead of the typed 406
`UnacceptableRequestError` the claim describes. -/
theorem claim_C1_encoder_resolution :
    getEncoder [jsonCodec] jsonCodec (some "application/json, text/html") =
      Except.ok jsonCodec
    ∧ getEncoder [jsonCodec] jsonCodec (some "TEXT/XML, Application/JSON") =
      Except.ok jsonCodec
    ∧ getEncoder [jsonCodec] jsonCodec (some "text/xml, */*") =
      Except.ok jsonCodec
    ∧ getEncoder [jsonCodec] jsonCodec (some "text/xml") =
      Except.error (PyError.attributeError "UnacceptableRequest")
    ∧ ∀ e, getEncoder [jsonCodec] jsonCodec (some "text/xml") ≠
        Except.error (PyError.serializable e) := by
  refine ⟨rfl, rfl, rfl, rfl, ?_⟩
  intro e h
  rw [show getEncoder [jsonCodec] jsonCodec (some "text/xml") =
      Except.error (PyError.attributeError "UnacceptableRequest") from rfl] at h
  simp at h

/-- Claim C2: any typed `SerializableError` raised while resolving the
codec or while running the handler aborts the request and is serialized to
a body with exactly the `errorMessage` and `errorDetails` fields, under the
status code associated with the error; no partial response is produced. -/
theorem claim_C2_typed_error_serialization
    (resolve : Except SerializableError Codec)
    (handler : Codec → Except SerializableError Response)
    (e : SerializableError)
    (h : resolve.bind handler = Except.error e) :
    runHandler resolve handler =
      { status := e.responseCode
        body := Body.json (JSON.obj
          [("errorMessage", JSON.str e.message),
           ("errorDetails", JSON.obj e.details)]) } := by
  simp [runHandler, reportErrors, h, errorJSON]

/-- Witness for claim C2 at a concrete typed error and handler. -/
theorem claim_C2_witness :
    runHandler (Except.error (PaginationError "Requested page size is negative"))
      (fun _ => Except.ok { status := 200, body := Body.empty }) =
      { status := 400
        body := Body.json (JSON.obj
          [("errorMessage", JSON.str "Requested page size is negative"),
           ("errorDetails", JSON.obj [])]) } :=
  claim_C2_typed_error_serialization
    (Except.error (PaginationError "Requested page size is negative"))
    (fun _ => Except.ok { status := 200, body := Body.empty })
    (PaginationError "Requested page size is negative") rfl

/-- Claim C5: PUT-create at a path-supplied identifier fails with the typed
403 `IdentifierError` naming both values and leaves the collection unchanged
when the constructed element identifying attribute differs from the path
identifier; when they match, the element is appended and the 201-equivalent
empty response is returned. -/
theorem claim_C5_put_create (c : Collection) (element : Element)
    (expected : String) :
    (element.id ≠ expected →
      createElement c element (some expected) =
        ({ status := 403
           body := Body.json (JSON.obj
             [("errorMessage",
               JSON.str "new element did not have specified identifying attribute"),
              ("errorDetails", JSON.obj
                [("actualIdentifyingAttribute", JSON.str (pyRepr element.id)),
                 ("expectedIdentifyingAttribute", JSON.str (pyRepr expected))])]) },
         c))
    ∧ (element.id = expected →
      createElement c element (some expected) =
        ({ status := 201, body := Body.empty },
         { c with elements := c.elements ++ [element] })) := by
  constructor
  · intro hne
    simp [createElement, hne, reportErrors, errorJSON, IdentifierError]
  · intro heq
    simp [createElement, heq]

/-- Witness for claim C5 at the spec example (path identifier 42, body
identifier 7) and at a matching create. -/
theorem claim_C5_witness :
    createElement sampleCollection sampleElement (some "42") =
      ({ status := 403
         body := Body.json (JSON.obj
           [("errorMessage",
             JSON.str "new element did not have specified identifying attribute"),
            ("errorDetails", JSON.obj
              [("actualIdentifyingAttribute", JSON.str (pyRepr "7")),
               ("expectedIdentifyingAttribute", JSON.str (pyRepr "42"))])]) },
       sampleCollection)
    ∧ createElement sampleCollection sampleElement (some "7") =
      ({ status := 201, body := Body.empty },
       { sampleCollection with
          elements := sampleCollection.elements ++ [sampleElement] }) :=
  ⟨(claim_C5_put_create sampleCollection sampleElement "42").1 (by decide),
   (claim_C5_put_create sampleCollection sampleElement "7").2 rfl⟩

/-- Claim C6: decoder resolution raises the typed 415 `MissingContentType`
carrying the supported decoder types when the header is absent, and returns
the matching decoder on an exact match; but on a present yet unmatched type
the code evaluates `errors.UnsupportedContentType`, a name errors.py does
not define, so the request dies with an untyped `AttributeError` instead of
the typed 415 `UnsupportedContentTypeError` the claim describes. -/
theorem claim_C6_decoder_resolution :
    (∀ decoders : List Codec, getDecoder decoders none =
      Except.error (PyError.serializable
        (MissingContentType (decoders.map (fun d => d.contentType)))))
    ∧ (MissingContentType ["application/json"]).responseCode = 415
    ∧ (MissingContentType ["application/json"]).details =
        [("supportedContentTypes", JSON.arr [JSON.str "application/json"])]
    ∧ getDecoder [jsonCodec] (some "application/json") = Except.ok jsonCodec
    ∧ getDecoder [jsonCodec] (some "text/xml") =
        Except.error (PyError.attributeError "UnsupportedContentType")
    ∧ ∀ e, getDecoder [jsonCodec] (some "text/xml") ≠
        Except.error (PyError.serializable e) := by
  refine ⟨fun decoders => rfl, rfl, rfl, rfl, rfl, ?_⟩
  intro e h
  rw [show getDecoder [jsonCodec] (some "text/xml") =
      Except.error (PyError.attributeError "UnsupportedContentType") from rfl] at h
  simp at h

/-- Claim C8: an omitted start parameter resolves to 0, an omitted stop
parameter resolves to the configured page size (not start plus page size),
and a parameter supplied exactly once with an integer value resolves to
that value. -/
theorem claim_C8_bound_defaults (pageSize : Int) (v w : String) (n m : Int)
    (hv : pyInt v = some n) (hw : pyInt w = some m) :
    getBounds none none pageSize = Except.ok (0, pageSize)
    ∧ getBounds (some [v]) none pageSize = Except.ok (n, pageSize)
    ∧ getBounds none (some [w]) pageSize = Except.ok (0, m)
    ∧ getBounds (some [v]) (some [w]) pageSize = Except.ok (n, m) := by
  refine ⟨rfl, ?_, ?_, ?_⟩ <;> simp [getBounds, getBound, hv, hw]

/-- Witness for claim C8 with start 3 and stop 7 against page size 10. -/
theorem claim_C8_witness :
    getBounds none none 10 = Except.ok (0, 10)
    ∧ getBounds (some ["3"]) none 10 = Except.ok (3, 10)
    ∧ getBounds none (some ["7"]) 10 = Except.ok (0, 7)
    ∧ getBounds (some ["3"]) (some ["7"]) 10 = Except.ok (3, 7) :=
  claim_C8_bound_defaults 10 "3" "7" 3 7 (by decide) (by decide)

/-- Claim C10: Accept-header parsing is not total: a segment with a
semicolon-delimited parameter lacking an equals sign raises an uncaught
`ValueError` (modelled as the parse returning no result), so encoder
resolution fails with an untyped error rather than a `SerializableError`. -/
theorem claim_C10_accept_parsing_not_total :
    parseAccept "text/html;q" = none
    ∧ getEncoder [jsonCodec] jsonCodec (some "text/html;q") =
        Except.error (PyError.valueError "need more than 1 value to unpack")
    ∧ ∀ e, getEncoder [jsonCodec] jsonCodec (some "text/html;q") ≠
        Except.error (PyError.serializable e) := by
  refine ⟨by decide, rfl, ?_⟩
  intro e h
  rw [show getEncoder [jsonCodec] jsonCodec (some "text/html;q") =
      Except.error (PyError.valueError "need more than 1 value to unpack")
      from rfl] at h
  simp at h

/-- Claim C3: DELETE at a terminal path segment whose identifier is absent
resolves to the typed 404 missing-resource page naming the identifier, with
the backing collection left unchanged (no element is removed); when the
identifier is present, the element is removed and the 204-equivalent empty
response is returned, without delegating to an element resource (the delete
branch runs before the lookup). -/
theorem claim_C3_delete_resolution (c : Collection) (id : String)
    (decoded : Element) :
    (c.elements.all (fun e => e.id != id) = true →
      getChild c "DELETE" true id decoded =
        (ChildOutcome.page
          { status := 404
            body := Body.json (JSON.obj
              [("errorMessage", JSON.str ("no such element " ++ id)),
               ("errorDetails", JSON.obj [])]) }, c))
    ∧ (c.elements.any (fun e => e.id == id) = true →
      getChild c "DELETE" true id decoded =
        (ChildOutcome.page { status := 204, body := Body.empty },
         { c with elements := c.elements.filter (fun e => e.id != id) })) := by
  have hDD : (("DELETE" : String) == "DELETE") = true := by decide
  have hDP : (("DELETE" : String) == "PUT") = false := by decide
  constructor
  · intro h
    have hany : c.elements.any (fun e => e.id == id) = false := by
      rw [List.any_eq_false]
      intro x hx
      have hx2 := (List.all_eq_true.mp h) x hx
      simpa using hx2
    simp [getChild, removeByIdentifier, hany, hDD, hDP, reportErrors,
      errorJSON, MissingResourceError]
  · intro h
    simp [getChild, removeByIdentifier, h, hDD, hDP]

/-- Witness for claim C3: deleting absent identifier 42 from the sample
collection yields the 404 page and leaves the collection unchanged; deleting
present identifier 7 yields the 204 page and removes it. -/
theorem claim_C3_witness :
    getChild sampleCollection "DELETE" true "42" sampleElement =
      (ChildOutcome.page
        { status := 404
          body := Body.json (JSON.obj
            [("errorMessage", JSON.str "no such element 42"),
             ("errorDetails", JSON.obj [])]) }, sampleCollection)
    ∧ getChild sampleCollection "DELETE" true "7" sampleElement =
      (ChildOutcome.page { status := 204, body := Body.empty },
       { sampleCollection with elements := [] }) :=
  ⟨(claim_C3_delete_resolution sampleCollection "42" sampleElement).1 (by decide),
   (claim_C3_delete_resolution sampleCollection "7" sampleElement).2 (by decide)⟩

/-- Counterexample to claim C4 as stated: for the resolved window
`[5, 5)` (width 0, within any positive page size cap), the previous link is
suppressed although the window start is 5, not 0; so the previous link can
be absent with a nonzero start, against the claimed equivalence. -/
theorem claim_C4_counterexample :
    getPaginationURLs "http://example/things" 5 5 10 =
      Except.ok (none,
        { base := "http://example/things", start := 5, stop := 5 })
    ∧ ((5 : Int) == 0) = false := ⟨rfl, rfl⟩

/-- Claim C4 (amended): for every resolved window with
`0 ≤ width ≤ maxPageSize`, the next link covers exactly
`[stop, stop + width)`; the previous link covers
`[max(0, start - width), start)` and is absent exactly when that window is
empty, that is when `start = 0` or when `width = 0` with `start > 0` (not
only when `start = 0`). -/
theorem claim_C4_pagination_links (base : String) (start stop m : Int)
    (h0 : 0 ≤ stop - start) (h1 : stop - start ≤ m) :
    getPaginationURLs base start stop m =
      Except.ok
        ((if start = 0 ∨ (stop - start = 0 ∧ 0 < start) then none
          else some { base := base
                      start := max 0 (start - (stop - start))
                      stop := start }),
         { base := base, start := stop, stop := stop + (stop - start) }) := by
  have hmax : (max 0 (start - (stop - start)) = start) ↔
      (start = 0 ∨ (stop - start = 0 ∧ 0 < start)) := by
    rw [max_def]
    split_ifs <;> constructor <;> intro h <;> omega
  simp only [getPaginationURLs]
  rw [if_neg (by omega : ¬ (stop - start < 0)),
      if_neg (by omega : ¬ (stop - start > m))]
  by_cases h : start = 0 ∨ (stop - start = 0 ∧ 0 < start)
  · rw [if_neg (not_not_intro (hmax.mpr h)), if_pos h]
  · rw [if_pos (fun heq => h (hmax.mp heq)), if_neg h]

/-- Witness for claim C4 at the window `[3, 7)` with cap 10. -/
theorem claim_C4_witness :
    getPaginationURLs "u" 3 7 10 =
      Except.ok
        ((if (3 : Int) = 0 ∨ ((7 : Int) - 3 = 0 ∧ (0 : Int) < 3) then none
          else some { base := "u"
                      start := max 0 (3 - ((7 : Int) - 3))
                      stop := 3 }),
         { base := "u", start := 7, stop := 7 + ((7 : Int) - 3) }) :=
  claim_C4_pagination_links "u" 3 7 10 (by decide) (by decide)

/-- CPython slicing: `l[0:s]` is the whole list when `s` is at least the
length. -/
theorem pySlice_all {α : Type} (l : List α) (s : Int)
    (h : (l.length : Int) ≤ s) : pySlice l 0 s = l := by
  have hn : (0 : Int) ≤ (l.length : Int) := Int.natCast_nonneg _
  simp only [pySlice, pyIndex]
  rw [if_neg (by omega : ¬ ((0 : Int) < 0)), if_neg (by omega : ¬ (s < 0))]
  rw [min_eq_left hn, min_eq_right h]
  simp

/-- Claim C9: whenever the collection GET window yields fewer elements than
the requested width, the next link of the envelope is null; in particular a
collection smaller than its page size answers a no-query GET with all its
elements and a null next link (for a configuration whose page size does not
exceed its cap). -/
theorem claim_C9_next_link_suppression (c : Collection) (base : String)
    (start stop : Int) (env : Envelope)
    (henv : renderWindow c base start stop = Except.ok env) :
    ((env.results.length : Int) < stop - start → env.next = none)
    ∧ ((c.elements.length : Int) < c.pageSize → c.pageSize ≤ c.maxPageSize →
      render_GET c base none none =
        Except.ok { results := c.elements.map (fun e => e.state)
                    prev := none
                    next := none }) := by
  constructor
  · intro hlt
    revert henv
    simp only [renderWindow]
    match hu : getPaginationURLs base start stop c.maxPageSize with
    | Except.error e => intro henv; exact Except.noConfusion henv
    | Except.ok (p, n) =>
      intro henv
      injection henv with henv2
      subst henv2
      simp only [List.length_map] at hlt
      simp only [if_pos (by omega :
        stop - start > ((pySlice c.elements start stop).length : Int))]
  · intro hcount hcap
    have hn : (0 : Int) ≤ (c.elements.length : Int) := Int.natCast_nonneg _
    rw [show render_GET c base none none =
        renderWindow c base 0 c.pageSize from rfl]
    simp only [renderWindow, getPaginationURLs]
    rw [if_neg (by omega : ¬ (c.pageSize - 0 < 0)),
        if_neg (by omega : ¬ (c.pageSize - 0 > c.maxPageSize)),
        if_neg (not_not_intro (by omega :
          max 0 (0 - (c.pageSize - 0)) = 0))]
    rw [show pySlice c.elements 0 c.pageSize = c.elements from
      pySlice_all c.elements c.pageSize (by omega)]
    have hgt : c.pageSize - 0 > ((c.elements.length : Int)) := by omega
    simp [hgt]
    omega

/-- Witness for claim C9: a window of width 5 over the one-element sample
collection returns one element and a null next link, and the no-query GET
over it returns all elements with a null next link. -/
theorem claim_C9_witness :
    Envelope.next { results := [JSON.null], prev := none, next := none } = none
    ∧ render_GET sampleCollection "u" none none =
        Except.ok { results := [JSON.null], prev := none, next := none } :=
  ⟨(claim_C9_next_link_suppression sampleCollection "u" 0 5
      { results := [JSON.null], prev := none, next := none } rfl).1 (by decide),
   (claim_C9_next_link_suppression sampleCollection "u" 0 5
      { results := [JSON.null], prev := none, next := none } rfl).2
      (by decide) (by decide)⟩

/-- `_getBound` succeeds on a well-formed value list, yielding the parsed
value or the default. -/
theorem getBound_ok (vals : Option (List String)) (k : String) (d : Int)
    (h1 : dupKey vals = false) (h2 : badIntVal vals = false) :
    getBound vals k d = Except.ok (resolvedBound vals d) := by
  match vals with
  | none => rfl
  | some [] => exact absurd h1 (by decide)
  | some [v] =>
    match hp : pyInt v with
    | some n => simp [getBound, resolvedBound, hp]
    | none =>
      exfalso
      rw [show badIntVal (some [v]) = (pyInt v).isNone from rfl, hp] at h2
      exact absurd h2 (by decide)
  | some (v :: w :: rest) =>
    exfalso
    rw [show dupKey (some (v :: w :: rest)) = ((rest.length + 2) != 1) from rfl] at h1
    simp at h1

/-- `_getBound` fails with a 400 `PaginationError` on a duplicated key or a
non-integer value. -/
theorem getBound_error (vals : Option (List String)) (k : String) (d : Int)
    (h : dupKey vals = true ∨ badIntVal vals = true) :
    ∃ e, getBound vals k d = Except.error e
      ∧ e.kind = "PaginationError" ∧ e.responseCode = 400 := by
  match vals with
  | none => simp [dupKey, badIntVal] at h
  | some [] => exact ⟨_, rfl, rfl, rfl⟩
  | some [v] =>
    match hp : pyInt v with
    | some n =>
      exfalso
      rcases h with h | h
      · rw [show dupKey (some [v]) = false from rfl] at h
        cases h
      · rw [show badIntVal (some [v]) = (pyInt v).isNone from rfl, hp] at h
        cases h
    | none =>
      refine ⟨PaginationError ("key " ++ k ++ " not an integer"), ?_, rfl, rfl⟩
      simp [getBound, hp]
  | some (v :: w :: rest) => exact ⟨_, rfl, rfl, rfl⟩

/-- `_getBounds` on well-formed queries yields the resolved bounds. -/
theorem getBounds_ok (sv tv : Option (List String)) (ps : Int)
    (h1 : dupKey sv = false) (h2 : badIntVal sv = false)
    (h3 : dupKey tv = false) (h4 : badIntVal tv = false) :
    getBounds sv tv ps =
      Except.ok (resolvedBound sv 0, resolvedBound tv ps) := by
  simp only [getBounds, getBound_ok sv "start" 0 h1 h2,
    getBound_ok tv "stop" ps h3 h4]

/-- `_getBounds` fails with a 400 `PaginationError` whenever either query
key is duplicated or non-integer. -/
theorem getBounds_error (sv tv : Option (List String)) (ps : Int)
    (h : dupKey sv = true ∨ badIntVal sv = true
       ∨ dupKey tv = true ∨ badIntVal tv = true) :
    ∃ e, getBounds sv tv ps = Except.error e
      ∧ e.kind = "PaginationError" ∧ e.responseCode = 400 := by
  by_cases hs : dupKey sv = true ∨ badIntVal sv = true
  · obtain ⟨e, he, hk, hc⟩ := getBound_error sv "start" 0 hs
    exact ⟨e, by simp only [getBounds, he], hk, hc⟩
  · have hs1 : dupKey sv = false := by
      cases hd : dupKey sv
      · rfl
      · exact absurd (Or.inl hd) hs
    have hs2 : badIntVal sv = false := by
      cases hd : badIntVal sv
      · rfl
      · exact absurd (Or.inr hd) hs
    have ht : dupKey tv = true ∨ badIntVal tv = true := by
      rcases h with h | h | h | h
      · rw [hs1] at h; cases h
      · rw [hs2] at h; cases h
      · exact Or.inl h
      · exact Or.inr h
    obtain ⟨e, he, hk, hc⟩ := getBound_error tv "stop" ps ht
    exact ⟨e, by simp only [getBounds, getBound_ok sv "start" 0 hs1 hs2, he],
      hk, hc⟩

/-- `_getPaginationURLs` fails exactly on a negative or oversized window. -/
theorem getPaginationURLs_error_iff (base : String) (start stop m : Int) :
    (∃ e, getPaginationURLs base start stop m = Except.error e) ↔
      (stop - start < 0 ∨ stop - start > m) := by
  constructor
  · rintro ⟨e, he⟩
    by_contra hc
    rw [not_or] at hc
    simp only [getPaginationURLs] at he
    rw [if_neg hc.1, if_neg hc.2] at he
    exact Except.noConfusion he
  · intro hc
    by_cases h0 : stop - start < 0
    · exact ⟨PaginationError "Requested page size is negative",
        by simp only [getPaginationURLs]; rw [if_pos h0]⟩
    · have h1 : stop - start > m := by tauto
      exact ⟨PaginationError "Requested page size too large",
        by simp only [getPaginationURLs]; rw [if_neg h0, if_pos h1]⟩

/-- Any `_getPaginationURLs` failure is a 400 `PaginationError`. -/
theorem getPaginationURLs_error_kind (base : String) (start stop m : Int)
    (e : SerializableError)
    (h : getPaginationURLs base start stop m = Except.error e) :
    e.kind = "PaginationError" ∧ e.responseCode = 400 := by
  by_cases h0 : stop - start < 0
  · simp only [getPaginationURLs] at h
    rw [if_pos h0] at h
    injection h with h2
    rw [← h2]
    exact ⟨rfl, rfl⟩
  · by_cases h1 : stop - start > m
    · simp only [getPaginationURLs] at h
      rw [if_neg h0, if_pos h1] at h
      injection h with h2
      rw [← h2]
      exact ⟨rfl, rfl⟩
    · simp only [getPaginationURLs] at h
      rw [if_neg h0, if_neg h1] at h
      exact Except.noConfusion h

/-- `renderWindow` fails exactly when the window is negative or oversized. -/
theorem renderWindow_error_iff (c : Collection) (base : String)
    (start stop : Int) :
    (∃ e, renderWindow c base start stop = Except.error e) ↔
      (stop - start < 0 ∨ stop - start > c.maxPageSize) := by
  constructor
  · rintro ⟨e, he⟩
    apply (getPaginationURLs_error_iff base start stop c.maxPageSize).mp
    revert he
    simp only [renderWindow]
    match hu : getPaginationURLs base start stop c.maxPageSize with
    | Except.error e2 => intro _; exact ⟨e2, rfl⟩
    | Except.ok (p, n) => intro he; exact Except.noConfusion he
  · intro hc
    obtain ⟨e, he⟩ :=
      (getPaginationURLs_error_iff base start stop c.maxPageSize).mpr hc
    exact ⟨e, by simp only [renderWindow, he]⟩

/-- Any `renderWindow` failure is a 400 `PaginationError`. -/
theorem renderWindow_error_kind (c : Collection) (base : String)
    (start stop : Int) (e : SerializableError)
    (h : renderWindow c base start stop = Except.error e) :
    e.kind = "PaginationError" ∧ e.responseCode = 400 := by
  revert h
  simp only [renderWindow]
  match hu : getPaginationURLs base start stop c.maxPageSize with
  | Except.error e2 =>
    intro h
    injection h with h2
    rw [← h2]
    exact getPaginationURLs_error_kind base start stop c.maxPageSize e2 hu
  | Except.ok (p, n) => intro h; exact Except.noConfusion h

/-- Claim C7: a collection GET raises a typed 400 pagination error exactly
when a query key is duplicated, a supplied value is not an integer, the
window width is negative, or the width exceeds the page size cap; and every
failure of the listing path is such a pagination error. -/
theorem claim_C7_pagination_error_conditions (c : Collection) (base : String)
    (sv tv : Option (List String)) :
    ((∃ e, render_GET c base sv tv = Except.error e) ↔
      (dupKey sv = true ∨ badIntVal sv = true
        ∨ dupKey tv = true ∨ badIntVal tv = true
        ∨ resolvedBound tv c.pageSize - resolvedBound sv 0 < 0
        ∨ resolvedBound tv c.pageSize - resolvedBound sv 0 > c.maxPageSize))
    ∧ (∀ e, render_GET c base sv tv = Except.error e →
        e.kind = "PaginationError" ∧ e.responseCode = 400) := by
  by_cases hq : dupKey sv = true ∨ badIntVal sv = true
      ∨ dupKey tv = true ∨ badIntVal tv = true
  · obtain ⟨e, he, hk, hc⟩ := getBounds_error sv tv c.pageSize hq
    have hrg : render_GET c base sv tv = Except.error e := by
      simp only [render_GET, he]
    refine ⟨⟨fun _ => by tauto, fun _ => ⟨e, hrg⟩⟩, ?_⟩
    intro e2 he2
    rw [hrg] at he2
    injection he2 with h3
    rw [← h3]
    exact ⟨hk, hc⟩
  · have h1 : dupKey sv = false := by
      cases hd : dupKey sv
      · rfl
      · exact absurd (Or.inl hd) hq
    have h2 : badIntVal sv = false := by
      cases hd : badIntVal sv
      · rfl
      · exact absurd (Or.inr (Or.inl hd)) hq
    have h3 : dupKey tv = false := by
      cases hd : dupKey tv
      · rfl
      · exact absurd (Or.inr (Or.inr (Or.inl hd))) hq
    have h4 : badIntVal tv = false := by
      cases hd : badIntVal tv
      · rfl
      · exact absurd (Or.inr (Or.inr (Or.inr hd))) hq
    have hrw : render_GET c base sv tv =
        renderWindow c base (resolvedBound sv 0) (resolvedBound tv c.pageSize) := by
      simp only [render_GET, getBounds_ok sv tv c.pageSize h1 h2 h3 h4]
    constructor
    · rw [hrw]
      constructor
      · intro hex
        have := (renderWindow_error_iff c base _ _).mp hex
        tauto
      · intro hr
        apply (renderWindow_error_iff c base _ _).mpr
        simp only [h1, h2, h3, h4] at hr
        tauto
    · intro e he
      rw [hrw] at he
      exact renderWindow_error_kind c base _ _ e he

/-- Witness for claim C7: a duplicated start key makes the sample listing
fail, and that failure is the 400 duplicate-key pagination error. -/
theorem claim_C7_witness :
    (∃ e, render_GET sampleCollection "u" (some ["0", "5"]) none =
      Except.error e)
    ∧ ((PaginationError "duplicate key start in query").kind = "PaginationError"
       ∧ (PaginationError "duplicate key start in query").responseCode = 400) :=
  ⟨(claim_C7_pagination_error_conditions sampleCollection "u"
      (some ["0", "5"]) none).1.mpr (Or.inl (by decide)),
   (claim_C7_pagination_error_conditions sampleCollection "u"
      (some ["0", "5"]) none).2
      (PaginationError "duplicate key start in query") rfl⟩

end Txyoga
